import Mathlib

/-!
Verification of the ons-sample-rotation repository (two Python scripts:
`preparing_sample_frame.py` and `sampling_code.py`) against its
natural-language specification.

The scripts are shallowly embedded: pandas dataframes become Lean lists of
typed row structures (plus a small untyped table model `UTable` where column
names and the row index matter), numeric cells become `Option Rat`
(`none` = NaN/null), IEEE division-by-zero sentinels become the `PVal` type,
and the filesystem becomes an association list from paths to file contents.
Stateful Python code (in-place pandas operations, `raise`, file writes) is
embedded by explicit state passing: functions return their result together
with the final state of their argument / of the filesystem, and a raised
exception is an explicit error value returned before any write happens.
-/

/-- A spreadsheet cell: a (finite) number, a string, a null (pandas NaN), or
one of the IEEE non-finite sentinels that pandas arithmetic can produce. -/
inductive Cell where
  | num (q : Rat)
  | str (s : String)
  | null
  | inf
  | neginf
  | nan
deriving DecidableEq, Repr

/-- The value of a floating-point computation: a finite (exact) number or one
of the IEEE sentinels.  Used for the columns produced by division. -/
inductive PVal where
  | num (q : Rat)
  | inf
  | neginf
  | nan
deriving DecidableEq, Repr

/-- IEEE-style division of finite values: division by zero yields `inf`,
`neginf` or `nan` depending on the sign of the numerator, exactly as the
floating-point division underlying `pandas` does. -/
def divPV (a b : Rat) : PVal :=
  if b ≠ 0 then .num (a / b)
  else if 0 < a then .inf
  else if a < 0 then .neginf
  else .nan

/-- Division with possibly-null (NaN) operands: NaN propagates. -/
def optDivPV : Option Rat → Option Rat → PVal
  | some a, some b => divPV a b
  | _, _ => .nan

/-- Addition with possibly-null (NaN) operands: NaN propagates (this is the
float semantics of `df["a"] + df["b"]` in pandas). -/
def optAdd : Option Rat → Option Rat → Option Rat
  | some a, some b => some (a + b)
  | _, _ => none

/-- Multiplication of a float value by a finite scalar (IEEE semantics:
`inf * 0 = nan`). -/
def mulPV : PVal → Rat → PVal
  | .num q, r => .num (q * r)
  | .inf, r => if 0 < r then .inf else if r < 0 then .neginf else .nan
  | .neginf, r => if 0 < r then .neginf else if r < 0 then .inf else .nan
  | .nan, _ => .nan

/-! ## The untyped table / file model

`UTable` is a dataframe seen structurally: its pandas row index, its column
names, and its cell grid.  `FileData` is the content of a written tabular
file: a header row and a cell grid. -/

structure UTable where
  idx : List Int
  cols : List String
  rows : List (List Cell)
deriving DecidableEq, Repr

structure FileData where
  header : List String
  cells : List (List Cell)
deriving DecidableEq, Repr

/-- `df.to_excel(path)` / `df.to_csv(path)`: when `withIndex` is true (the
`to_excel` default used by `write_df_to_excel`), the row index is written as
an extra leading column whose header cell is empty; with `index=False` (as in
`write_df`) only the data columns are written. -/
def toTabularFile (withIndex : Bool) (t : UTable) : FileData :=
  if withIndex then
    { header := "" :: t.cols
      cells := List.zipWith (fun (i : Int) r => Cell.num (Int.cast i : Rat) :: r)
        t.idx t.rows }
  else
    { header := t.cols, cells := t.rows }

/-- Column naming applied by `pandas.read_excel`: a column whose header cell
is empty is named `Unnamed: k` after its position `k`. -/
def renameUnnamed : Nat → List String → List String
  | _, [] => []
  | k, h :: t =>
    (if h = "" then "Unnamed: " ++ toString k else h) :: renameUnnamed (k + 1) t

/-- `pandas.read_excel` on a written tabular file: the result gets a fresh
range index and the positional `Unnamed: k` names for empty header cells. -/
def readExcelFile (f : FileData) : UTable :=
  { idx := (List.range f.cells.length).map Int.ofNat
    cols := renameUnnamed 0 f.header
    rows := f.cells }

/-- The filesystem: an association list from paths to file contents.  A new
write shadows (replaces) an older binding of the same path. -/
def FS := List (String × FileData)

instance : DecidableEq FS := inferInstanceAs (DecidableEq (List (String × FileData)))

def fsWrite (fs : FS) (path : String) (f : FileData) : FS := (path, f) :: fs

def fsLookup (fs : FS) (path : String) : Option FileData := List.lookup path fs

/-- The message of the `FileExistsError` raised by
`write_df_to_excel` in `preparing_sample_frame.py`. -/
def fileExistsMsg (outfile : String) : String :=
  "The file " ++ outfile ++ " already exists and overwrite is False.\n" ++
    "Either change the output filename or rerun with overwrite as True."

/-- The message of the `FileExistsError` raised by `write_df` in
`sampling_code.py`.  Note that the source interpolates the module-global
`args.outfile`, not its `out_file` parameter; the global is therefore an
explicit argument of the embedding. -/
def forceMsg (argsOutfile : String) : String :=
  "The output file " ++ argsOutfile ++ " already exists and force is False.\n" ++
    "Either rerun with the force option or select a different output filename."

/-- `write_df_to_excel(df, outfile, overwrite)` from
`preparing_sample_frame.py`: if the file exists and `overwrite` is false the
`FileExistsError` is raised (returned as `some message`) and the filesystem
is untouched; otherwise `df.to_excel(out_file)` writes the table with its
index. -/
def write_df_to_excel (df : UTable) (outfile : String) (overwrite : Bool)
    (fs : FS) : Option String × FS :=
  if (fsLookup fs outfile).isSome && !overwrite then
    (some (fileExistsMsg outfile), fs)
  else
    (none, fsWrite fs outfile (toTabularFile true df))

/-- Characters after the last dot of a filename (`none` when it has no
dot). -/
def fileSuffixAux : List Char → Option (List Char) → Option (List Char)
  | [], cur => cur
  | c :: rest, cur =>
    if c = '.' then fileSuffixAux rest (some [])
    else fileSuffixAux rest (cur.map (fun l => l ++ [c]))

/-- `pathlib.Path(...).suffix`: the extension after the last dot of the
filename (empty for a dotless or dot-final name). -/
def fileSuffix (s : String) : String :=
  match fileSuffixAux s.data none with
  | none => ""
  | some [] => ""
  | some l => "." ++ String.mk l

/-- `is_file_excel` from `sampling_code.py`. -/
def is_file_excel (filename : String) : Bool :=
  fileSuffix filename == ".xls" || fileSuffix filename == ".xlsx"

/-- `write_df(df, out_file, overwrite)` from `sampling_code.py`.  Parent
directory creation touches no tabular file and is not reflected in the file
map.  The existence guard raises (with a message built from the global
`args.outfile`, passed here as `argsOutfile`) before anything is written;
otherwise the frame is written without its index (`index=False`), as a
spreadsheet or a CSV depending on the extension. -/
def write_df (df : UTable) (out_file : String) (argsOutfile : String)
    (overwrite : Bool) (fs : FS) : Option String × FS :=
  if (fsLookup fs out_file).isSome && !overwrite then
    (some (forceMsg argsOutfile), fs)
  else
    (none, fsWrite fs out_file
      (if is_file_excel out_file then toTabularFile false df
       else toTabularFile false df))

/-! ## Frame preparation: the typed pipeline schemas

`preparing_sample_frame.py` threads a single dataframe through two self
joins, a postprocessing step and a filter.  Each stage has a fixed schema,
embedded as a row structure.  The incidental `Unnamed: 0` index column (it is
present when the loaded spreadsheet was itself produced by a `to_excel`
round trip, and `merge_turnover_outlets` unconditionally drops it) is
tracked by a frame-level flag `hasU0` plus a per-row value `u0`; when
`hasU0` is false the `u0` values are meaningless and never observed. -/

structure Row0 where
  u0 : Int := 0
  FacilityID : Int
  LocName : Cell
  Merge_ID : Option Int
  Merge_Num : Option Int
  Sum_Turnov : Option Rat
  OutletCt : Option Rat
deriving DecidableEq, Repr

/-- The loaded locations table. -/
structure Frame0 where
  hasU0 : Bool
  rows : List Row0
deriving DecidableEq, Repr

/-- Schema after `merge_facility_ID`: the donor columns `LocName_merge` and
`FacilityID_merge` are appended (the transient `Merge_ID_merge` join column
is dropped right after the merge and is not materialised). -/
structure Row1 where
  u0 : Int := 0
  FacilityID : Int
  LocName : Cell
  Merge_ID : Option Int
  Merge_Num : Option Int
  Sum_Turnov : Option Rat
  OutletCt : Option Rat
  LocName_merge : Cell
  FacilityID_merge : Option Int
deriving DecidableEq, Repr

structure Frame1 where
  hasU0 : Bool
  rows : List Row1
deriving DecidableEq, Repr

/-- Schema after `merge_turnover_outlets`: donor turnover/outlet columns with
suffix `_loc2` are appended; the columns `Unnamed: 0` and `FacilityID_loc2`
are dropped (so neither appears here). -/
structure Row2 where
  FacilityID : Int
  LocName : Cell
  Merge_ID : Option Int
  Merge_Num : Option Int
  Sum_Turnov : Option Rat
  OutletCt : Option Rat
  LocName_merge : Cell
  FacilityID_merge : Option Int
  Sum_Turnov_loc2 : Option Rat
  OutletCt_loc2 : Option Rat
deriving DecidableEq, Repr

/-- Schema after `postproc_turnover_df`: the three computed columns are
appended. -/
structure Row3 extends Row2 where
  Total_TURNOV : Option Rat
  Total_OutletCt : Option Rat
  avg_TURNOV : PVal
deriving DecidableEq, Repr

/-! ### Serialisation of the typed frames into the untyped table model

These realise "the dataframe as `to_excel` sees it": column names in pandas
order and the row index.  Merge outputs and `postproc_turnover_df` outputs
carry a fresh range index (`pd.merge` and `copy` of a range-indexed frame);
the filtered frame keeps the labels of the rows that survived, so its rows
are serialised together with their labels. -/

def cellOfInt (z : Int) : Cell := .num (z : Rat)

def cellOfOptInt : Option Int → Cell
  | some z => cellOfInt z
  | none => .null

def cellOfOptRat : Option Rat → Cell
  | some q => .num q
  | none => .null

def cellOfPVal : PVal → Cell
  | .num q => .num q
  | .inf => .inf
  | .neginf => .neginf
  | .nan => .nan

def row1Cells (hasU0 : Bool) (r : Row1) : List Cell :=
  (if hasU0 then [cellOfInt r.u0] else []) ++
    [cellOfInt r.FacilityID, r.LocName, cellOfOptInt r.Merge_ID,
     cellOfOptInt r.Merge_Num, cellOfOptRat r.Sum_Turnov,
     cellOfOptRat r.OutletCt, r.LocName_merge, cellOfOptInt r.FacilityID_merge]

def serFrame1 (f : Frame1) : UTable :=
  { idx := (List.range f.rows.length).map Int.ofNat
    cols := (if f.hasU0 then ["Unnamed: 0"] else []) ++
      ["FacilityID", "LocName", "Merge_ID", "Merge_Num", "Sum_Turnov",
       "OutletCt", "LocName_merge", "FacilityID_merge"]
    rows := f.rows.map (row1Cells f.hasU0) }

def row2Cells (r : Row2) : List Cell :=
  [cellOfInt r.FacilityID, r.LocName, cellOfOptInt r.Merge_ID,
   cellOfOptInt r.Merge_Num, cellOfOptRat r.Sum_Turnov,
   cellOfOptRat r.OutletCt, r.LocName_merge, cellOfOptInt r.FacilityID_merge,
   cellOfOptRat r.Sum_Turnov_loc2, cellOfOptRat r.OutletCt_loc2]

def row2Columns : List String :=
  ["FacilityID", "LocName", "Merge_ID", "Merge_Num", "Sum_Turnov",
   "OutletCt", "LocName_merge", "FacilityID_merge", "Sum_Turnov_loc2",
   "OutletCt_loc2"]

def serRows2 (rows : List Row2) : UTable :=
  { idx := (List.range rows.length).map Int.ofNat
    cols := row2Columns
    rows := rows.map row2Cells }

def row3Cells (r : Row3) : List Cell :=
  row2Cells r.toRow2 ++
    [cellOfOptRat r.Total_TURNOV, cellOfOptRat r.Total_OutletCt,
     cellOfPVal r.avg_TURNOV]

def row3Columns : List String :=
  row2Columns ++ ["Total_TURNOV", "Total_OutletCt", "avg_TURNOV"]

def serRows3 (rows : List Row3) : UTable :=
  { idx := (List.range rows.length).map Int.ofNat
    cols := row3Columns
    rows := rows.map row3Cells }

/-- Serialise a frame of label-tagged postprocessed rows (the filtered frame
keeps the index labels of its surviving rows). -/
def serTagged3 (rows : List (Nat × Row3)) : UTable :=
  { idx := rows.map (fun p => Int.ofNat p.1)
    cols := row3Columns
    rows := rows.map (fun p => row3Cells p.2) }

/-- One left-merge probe of `merge_facility_ID`: the acceptor row `l` against
the donor table `right` (the same frame, restricted to the columns
`LocName`, `FacilityID`, `Merge_ID`), matching `l.Merge_ID` to the donor
`FacilityID`.  A pandas left join emits one output row per matching donor
row, and a single null-padded row when there is no match. -/
def mergeRows1 (right : List Row0) (l : Row0) : List Row1 :=
  let ms := right.filter (fun r => decide (l.Merge_ID = some r.FacilityID))
  if ms.isEmpty then
    [{ u0 := l.u0, FacilityID := l.FacilityID, LocName := l.LocName,
       Merge_ID := l.Merge_ID, Merge_Num := l.Merge_Num,
       Sum_Turnov := l.Sum_Turnov, OutletCt := l.OutletCt,
       LocName_merge := .null, FacilityID_merge := none }]
  else
    ms.map (fun d =>
      { u0 := l.u0, FacilityID := l.FacilityID, LocName := l.LocName,
        Merge_ID := l.Merge_ID, Merge_Num := l.Merge_Num,
        Sum_Turnov := l.Sum_Turnov, OutletCt := l.OutletCt,
        LocName_merge := d.LocName, FacilityID_merge := some d.FacilityID })

/-- The errors a pipeline run can raise: the `FileExistsError` of the write
guard, or the `KeyError` of `DataFrame.drop` on a missing column label. -/
inductive PipeErr where
  | fileExists (msg : String)
  | keyError (missing : String)
deriving DecidableEq, Repr

/-- `merge_facility_ID(df, outfile, overwrite)`: the self left join on
`Merge_ID = FacilityID` with suffix `_merge`, the drop of the transient
`Merge_ID_merge` column, and the save of the result. -/
def merge_facility_ID (df : Frame0) (outfile : String) (overwrite : Bool)
    (fs : FS) : Except PipeErr (FS × Frame1) :=
  let merged : Frame1 :=
    { hasU0 := df.hasU0, rows := df.rows.flatMap (mergeRows1 df.rows) }
  match write_df_to_excel (serFrame1 merged) outfile overwrite fs with
  | (some msg, _) => .error (.fileExists msg)
  | (none, fs2) => .ok (fs2, merged)

/-- One left-merge probe of `merge_turnover_outlets`: the row `l` against the
donor table (the merged frame itself, restricted to `FacilityID`,
`Sum_Turnov`, `OutletCt`), matching `l.FacilityID_merge` to the donor
`FacilityID`. -/
def mergeRows2 (right : List Row1) (l : Row1) : List Row2 :=
  let ms := right.filter (fun r => decide (l.FacilityID_merge = some r.FacilityID))
  if ms.isEmpty then
    [{ FacilityID := l.FacilityID, LocName := l.LocName,
       Merge_ID := l.Merge_ID, Merge_Num := l.Merge_Num,
       Sum_Turnov := l.Sum_Turnov, OutletCt := l.OutletCt,
       LocName_merge := l.LocName_merge, FacilityID_merge := l.FacilityID_merge,
       Sum_Turnov_loc2 := none, OutletCt_loc2 := none }]
  else
    ms.map (fun d =>
      { FacilityID := l.FacilityID, LocName := l.LocName,
        Merge_ID := l.Merge_ID, Merge_Num := l.Merge_Num,
        Sum_Turnov := l.Sum_Turnov, OutletCt := l.OutletCt,
        LocName_merge := l.LocName_merge, FacilityID_merge := l.FacilityID_merge,
        Sum_Turnov_loc2 := d.Sum_Turnov, OutletCt_loc2 := d.OutletCt })

/-- `merge_turnover_outlets(df, outfile, overwrite)`: the second self left
join (on `FacilityID_merge = FacilityID`, suffix `_loc2`), then
`merged.drop(columns=["Unnamed: 0", "FacilityID_loc2"])` — which raises
`KeyError` when the frame has no `Unnamed: 0` column, since `drop` defaults
to `errors="raise"` — and finally the save of the result. -/
def merge_turnover_outlets (df : Frame1) (outfile : String) (overwrite : Bool)
    (fs : FS) : Except PipeErr (FS × List Row2) :=
  let merged : List Row2 := df.rows.flatMap (mergeRows2 df.rows)
  if df.hasU0 = false then .error (.keyError "Unnamed: 0")
  else
    match write_df_to_excel (serRows2 merged) outfile overwrite fs with
    | (some msg, _) => .error (.fileExists msg)
    | (none, fs2) => .ok (fs2, merged)

/-! ## Postprocessing, filter and duplicate detection -/

/-- `fillna(0)` on a cell: nulls become the number `0`, everything else is
unchanged (pandas puts the scalar `0` into string columns too). -/
def fillCell : Cell → Cell
  | .null => .num 0
  | c => c

/-- `df_copy.fillna(0, inplace=True)` on one row: every null value of every
column is coerced to `0`; the schema is unchanged. -/
def fillnaRow2 (r : Row2) : Row2 :=
  { FacilityID := r.FacilityID
    LocName := fillCell r.LocName
    Merge_ID := some (r.Merge_ID.getD 0)
    Merge_Num := some (r.Merge_Num.getD 0)
    Sum_Turnov := some (r.Sum_Turnov.getD 0)
    OutletCt := some (r.OutletCt.getD 0)
    LocName_merge := fillCell r.LocName_merge
    FacilityID_merge := some (r.FacilityID_merge.getD 0)
    Sum_Turnov_loc2 := some (r.Sum_Turnov_loc2.getD 0)
    OutletCt_loc2 := some (r.OutletCt_loc2.getD 0) }

/-- The three column assignments of `postproc_turnover_df`:
`Total_TURNOV = Sum_Turnov + Sum_Turnov_loc2`,
`Total_OutletCt = OutletCt + OutletCt_loc2`,
`avg_TURNOV = Total_TURNOV / Total_OutletCt` (float semantics: NaN
propagates through `+`, and division by zero yields a sentinel). -/
def addTotalsRow (r : Row2) : Row3 :=
  { toRow2 := r
    Total_TURNOV := optAdd r.Sum_Turnov r.Sum_Turnov_loc2
    Total_OutletCt := optAdd r.OutletCt r.OutletCt_loc2
    avg_TURNOV := optDivPV (optAdd r.Sum_Turnov r.Sum_Turnov_loc2)
      (optAdd r.OutletCt r.OutletCt_loc2) }

/-- `postproc_turnover_df(df)`: works on `df.copy()` — all in-place
operations (`fillna` and the three column assignments) target the copy —
and returns it; the second component is the final state of the argument
`df`, to which no operation was applied. -/
def postproc_turnover_df (df : List Row2) : List Row3 × List Row2 :=
  let df_copy := df
  let df_copy := df_copy.map fillnaRow2
  let df_copy := df_copy.map addTotalsRow
  (df_copy, df)

/-- The predicate of `main`'s
`query("(Total_OutletCt >= 250) & (Merge_Num != 2)")`, with pandas float
comparison semantics on nulls: `NaN >= 250` is false and `NaN != 2` is
true. -/
def queryPred (r : Row3) : Bool :=
  (match r.Total_OutletCt with
   | some v => decide (250 ≤ v)
   | none => false) &&
  (match r.Merge_Num with
   | some m => decide (m ≠ 2)
   | none => true)

/-- The size/role filter of `main` on the label-tagged postprocessed frame:
`df.query(...)` keeps exactly the rows satisfying the predicate, in their
original order, with their index labels. -/
def queryFilter (df : List (Nat × Row3)) : List (Nat × Row3) :=
  df.filter (fun p => queryPred p.2)

/-- `df.duplicated(col, keep=False)`: the boolean mask that flags every row
whose value in the keyed column occurs in at least two rows of the frame.
The column name becomes an accessor `key` on typed rows. -/
def duplicatedKeepFalse {α β : Type} [DecidableEq β] (key : α → β)
    (df : List α) : List Bool :=
  df.map (fun r => decide (2 ≤ df.countP (fun s => decide (key s = key r))))

/-- Boolean-mask row selection `df[mask]`. -/
def maskSelect {α : Type} : List α → List Bool → List α
  | [], _ => []
  | _, [] => []
  | a :: as, b :: bs => if b then a :: maskSelect as bs else maskSelect as bs

/-- `save_df_duplicates(df, col, outfile, overwrite)`: computes the
`keep=False` duplicate mask on the column, selects the flagged rows and
writes them with `write_df_to_excel`.  `ser` is the serialisation of this
row type for the write; the second component is the final state of the
argument `df` (the function only reads it). -/
def save_df_duplicates {α β : Type} [DecidableEq β] (ser : List α → UTable)
    (df : List α) (key : α → β) (outfile : String) (overwrite : Bool)
    (fs : FS) : (Option String × FS) × List α :=
  let duplicates := duplicatedKeepFalse key df
  (write_df_to_excel (ser (maskSelect df duplicates)) outfile overwrite fs, df)

/-- `main(infile, force)` of `preparing_sample_frame.py`.  The loaded frame
stands in for `pd.read_excel(in_file)` and `parent` for `in_file.parent`;
the returned value is the final filesystem together with the filtered frame
(the table written to the Draft file and used for duplicate detection). -/
def mainPrep (locations : Frame0) (parent : String) (force : Bool)
    (fs : FS) : Except PipeErr (FS × List (Nat × Row3)) := do
  let out_file_ID_merge :=
    parent ++ "/CPI_New_Sampling_Frame_TableToExcel__ID_Merge_2022.xlsx"
  let (fs, locations_merged) ←
    merge_facility_ID locations out_file_ID_merge force fs
  let out_file_turnover_merge :=
    parent ++ "/CPI_New_Sampling_Frame_TableToExcel__Intermediate_2022.xlsx"
  let (fs, turnover_merged) ←
    merge_turnover_outlets locations_merged out_file_turnover_merge force fs
  let turnover_merged := (postproc_turnover_df turnover_merged).1
  let fs ←
    match write_df_to_excel (serRows3 turnover_merged)
        (parent ++ "/CPI_New_Sampling_Frame_TableToExcel__Intermediate2_2022.xlsx")
        force fs with
    | (some msg, _) => .error (.fileExists msg)
    | (none, fs2) => pure fs2
  let tagged := turnover_merged.enum
  let filtered := queryFilter tagged
  let fs ←
    match write_df_to_excel (serTagged3 filtered)
        (parent ++ "/CPI_New_Sampling_Frame_Draft_2022.xlsx") force fs with
    | (some msg, _) => .error (.fileExists msg)
    | (none, fs2) => pure fs2
  let fs ←
    match (save_df_duplicates serTagged3 filtered (fun p => p.2.Merge_ID)
        (parent ++ "/2022_duplicate_1.xlsx") force fs).1 with
    | (some msg, _) => .error (.fileExists msg)
    | (none, fs2) => pure fs2
  let fs ←
    match (save_df_duplicates serTagged3 filtered (fun p => p.2.FacilityID_merge)
        (parent ++ "/2022_duplicate_2.xlsx") force fs).1 with
    | (some msg, _) => .error (.fileExists msg)
    | (none, fs2) => pure fs2
  return (fs, filtered)

/-! ## Replacement sampling (`sampling_code.py`) -/

/-- A row of the sampling-frame table, with the columns
`generate_replacement_locations` reads. -/
structure SRow where
  FacilityID : Int
  Region : String
  Sum_Turnov : Rat
deriving DecidableEq, Repr

/-- Descending comparison on randomised weights for
`sort_values(by="weight", ascending=False)`: larger weights first, NaN
sorted last (`na_position="last"`). -/
def pvalDescLe : PVal → PVal → Bool
  | .nan, .nan => true
  | .nan, _ => false
  | _, .nan => true
  | .inf, _ => true
  | _, .inf => false
  | .num p, .num q => decide (q ≤ p)
  | .num _, .neginf => true
  | .neginf, .num _ => false
  | .neginf, .neginf => true

/-- `generate_replacement_locations(df, region, n_locations)`: copy the
frame, restrict to the region (with a fresh contiguous index), weight each
row by its share of the regional turnover times one uniform draw per row
(the draws are the explicit argument `rnds`, one per regional row), sort
descending by the randomised weight, drop the weight column and keep the
first `n_locations` rows.  The second component is the final state of the
argument `df`: every in-place operation targets the copy or the regional
selection, never `df`. -/
def generate_replacement_locations (df : List SRow) (region : String)
    (n_locations : Nat) (rnds : List Rat) : List SRow × List SRow :=
  let df_copy := df
  let df_regional := df_copy.filter (fun r => decide (r.Region = region))
  let total_turnover := (df_regional.map SRow.Sum_Turnov).sum
  let weights := df_regional.map (fun r => divPV r.Sum_Turnov total_turnover)
  let weights := List.zipWith mulPV weights rnds
  let sorted := (df_regional.zip weights).mergeSort
    (fun a b => pvalDescLe a.2 b.2)
  let sorted := sorted.map Prod.fst
  (sorted.take n_locations, df)

/-! ## Derived forms and concrete example data

`row1Of` / `row2Of` are the single-row normal forms of one left-join probe
when the donor key column has no duplicates (then a probe matches at most
one donor row); they are proof-layer derivations, not source transcriptions. -/

def row1Of (right : List Row0) (l : Row0) : Row1 :=
  match right.find? (fun r => decide (l.Merge_ID = some r.FacilityID)) with
  | some d =>
    { u0 := l.u0, FacilityID := l.FacilityID, LocName := l.LocName,
      Merge_ID := l.Merge_ID, Merge_Num := l.Merge_Num,
      Sum_Turnov := l.Sum_Turnov, OutletCt := l.OutletCt,
      LocName_merge := d.LocName, FacilityID_merge := some d.FacilityID }
  | none =>
    { u0 := l.u0, FacilityID := l.FacilityID, LocName := l.LocName,
      Merge_ID := l.Merge_ID, Merge_Num := l.Merge_Num,
      Sum_Turnov := l.Sum_Turnov, OutletCt := l.OutletCt,
      LocName_merge := .null, FacilityID_merge := none }

def row2Of (right : List Row1) (l : Row1) : Row2 :=
  match right.find? (fun r => decide (l.FacilityID_merge = some r.FacilityID)) with
  | some d =>
    { FacilityID := l.FacilityID, LocName := l.LocName,
      Merge_ID := l.Merge_ID, Merge_Num := l.Merge_Num,
      Sum_Turnov := l.Sum_Turnov, OutletCt := l.OutletCt,
      LocName_merge := l.LocName_merge, FacilityID_merge := l.FacilityID_merge,
      Sum_Turnov_loc2 := d.Sum_Turnov, OutletCt_loc2 := d.OutletCt }
  | none =>
    { FacilityID := l.FacilityID, LocName := l.LocName,
      Merge_ID := l.Merge_ID, Merge_Num := l.Merge_Num,
      Sum_Turnov := l.Sum_Turnov, OutletCt := l.OutletCt,
      LocName_merge := l.LocName_merge, FacilityID_merge := l.FacilityID_merge,
      Sum_Turnov_loc2 := none, OutletCt_loc2 := none }

/-- The acceptor row of the end-to-end example
(FacilityID=1, Merge_ID=2, Merge_Num=1, Sum_Turnov=100, OutletCt=300). -/
def exampleAcceptor : Row0 :=
  { u0 := 0, FacilityID := 1, LocName := .str "A", Merge_ID := some 2,
    Merge_Num := some 1, Sum_Turnov := some 100, OutletCt := some 300 }

/-- The donor row of the end-to-end example
(FacilityID=2, Merge_ID=null, Merge_Num=2, Sum_Turnov=50, OutletCt=100). -/
def exampleDonor : Row0 :=
  { u0 := 1, FacilityID := 2, LocName := .str "B", Merge_ID := none,
    Merge_Num := some 2, Sum_Turnov := some 50, OutletCt := some 100 }

/-- The example input table as the claim states it: exactly the required
schema, no incidental `Unnamed: 0` index column. -/
def exampleFrame : Frame0 := { hasU0 := false, rows := [exampleAcceptor, exampleDonor] }

/-- The same two rows as they look after a `to_excel`/`read_excel` round
trip: with the incidental `Unnamed: 0` index column. -/
def exampleFrameRoundTrip : Frame0 :=
  { hasU0 := true, rows := [exampleAcceptor, exampleDonor] }

/-- The surviving row of the end-to-end example after the full pipeline. -/
def exampleSurvivor : Row3 :=
  { FacilityID := 1, LocName := .str "A", Merge_ID := some 2,
    Merge_Num := some 1, Sum_Turnov := some 100, OutletCt := some 300,
    LocName_merge := .str "B", FacilityID_merge := some 2,
    Sum_Turnov_loc2 := some 50, OutletCt_loc2 := some 100,
    Total_TURNOV := some 150, Total_OutletCt := some 400,
    avg_TURNOV := .num (3 / 8) }

/-- A merged row with null donor columns, used to exercise the null-to-zero
coercion of `postproc_turnover_df`. -/
def exampleMergedNullRow : Row2 :=
  { FacilityID := 7, LocName := .str "X", Merge_ID := none,
    Merge_Num := some 1, Sum_Turnov := some 20, OutletCt := some 30,
    LocName_merge := .null, FacilityID_merge := none,
    Sum_Turnov_loc2 := none, OutletCt_loc2 := none }

/-- A merged row whose total outlet count is zero, used to exercise the
division-by-zero sentinel of `avg_TURNOV`. -/
def exampleZeroOutletRow : Row2 :=
  { FacilityID := 9, LocName := .str "Z", Merge_ID := none,
    Merge_Num := some 1, Sum_Turnov := some 5, OutletCt := some 0,
    LocName_merge := .null, FacilityID_merge := none,
    Sum_Turnov_loc2 := none, OutletCt_loc2 := none }

/-- A two-row sampling-frame table with one region, used as sampler witness
input. -/
def exampleSampleFrame : List SRow :=
  [{ FacilityID := 1, Region := "North", Sum_Turnov := 90 },
   { FacilityID := 2, Region := "North", Sum_Turnov := 10 }]

/-- A small untyped table used as writer witness input. -/
def exampleUTable : UTable :=
  { idx := [0, 1]
    cols := ["FacilityID", "LocName"]
    rows := [[.num 1, .str "A"], [.num 2, .str "B"]] }

/-! ## Helper lemmas -/

/-- Under a duplicate-free key column, a join probe predicate (which pins the
key down to a single value) selects at most one row: the filter collapses to
the first find. -/
lemma filter_unique_key {α : Type} (key : α → Int) (p : α → Bool)
    (hinj : ∀ a b, p a = true → p b = true → key a = key b) :
    ∀ l : List α, (l.map key).Nodup → l.filter p = (l.find? p).toList := by
  intro l
  induction l with
  | nil => intro _; simp
  | cons a t ih =>
    intro h
    simp only [List.map_cons, List.nodup_cons] at h
    obtain ⟨hna, hnd⟩ := h
    by_cases hpa : p a = true
    · rw [List.filter_cons_of_pos hpa, List.find?_cons_of_pos t hpa]
      have ht : t.filter p = [] := by
        rw [List.filter_eq_nil_iff]
        intro b hb hpb
        exact hna (by rw [hinj a b hpa hpb]; exact List.mem_map_of_mem key hb)
      rw [ht]
      rfl
    · rw [List.filter_cons_of_neg hpa, List.find?_cons_of_neg t hpa]
      exact ih hnd

/-- Under a duplicate-free key column, a matching row is the unique result of
`find?`. -/
lemma find_unique_key {α : Type} (key : α → Int) (p : α → Bool)
    (hinj : ∀ a b, p a = true → p b = true → key a = key b)
    (l : List α) (hnd : (l.map key).Nodup) (d : α) (hd : d ∈ l)
    (hpd : p d = true) : l.find? p = some d := by
  have hmem : d ∈ l.filter p := List.mem_filter.mpr ⟨hd, hpd⟩
  rw [filter_unique_key key p hinj l hnd] at hmem
  cases hf : l.find? p with
  | none => rw [hf] at hmem; simp [Option.toList] at hmem
  | some e =>
    rw [hf] at hmem
    simp only [Option.toList, List.mem_singleton] at hmem
    rw [hmem]

lemma flatMap_of_forall_singleton {α β : Type} (l : List α) (g : α → List β)
    (f : α → β) (h : ∀ a ∈ l, g a = [f a]) : l.flatMap g = l.map f := by
  induction l with
  | nil => rfl
  | cons a t ih =>
    rw [List.flatMap_cons, h a (List.mem_cons_self a t), List.map_cons,
      ih (fun b hb => h b (List.mem_cons_of_mem a hb))]
    rfl

/-- Injectivity of the probe predicate of `merge_facility_ID` in the donor
key. -/
lemma probe1_inj (l : Row0) : ∀ a b : Row0,
    decide (l.Merge_ID = some a.FacilityID) = true →
    decide (l.Merge_ID = some b.FacilityID) = true →
    a.FacilityID = b.FacilityID := by
  intro a b ha hb
  rw [decide_eq_true_eq] at ha hb
  rw [ha] at hb
  exact (Option.some_inj.mp hb)

lemma probe2_inj (l : Row1) : ∀ a b : Row1,
    decide (l.FacilityID_merge = some a.FacilityID) = true →
    decide (l.FacilityID_merge = some b.FacilityID) = true →
    a.FacilityID = b.FacilityID := by
  intro a b ha hb
  rw [decide_eq_true_eq] at ha hb
  rw [ha] at hb
  exact (Option.some_inj.mp hb)

/-- Under a duplicate-free `FacilityID` column the first join probe produces
exactly one row, the `row1Of` normal form. -/
lemma mergeRows1_eq (right : List Row0) (l : Row0)
    (hnd : (right.map Row0.FacilityID).Nodup) :
    mergeRows1 right l = [row1Of right l] := by
  unfold mergeRows1 row1Of
  rw [filter_unique_key Row0.FacilityID _ (probe1_inj l) right hnd]
  cases hf : right.find? (fun r => decide (l.Merge_ID = some r.FacilityID)) with
  | none => rfl
  | some d => rfl

lemma mergeRows2_eq (right : List Row1) (l : Row1)
    (hnd : (right.map Row1.FacilityID).Nodup) :
    mergeRows2 right l = [row2Of right l] := by
  unfold mergeRows2 row2Of
  rw [filter_unique_key Row1.FacilityID _ (probe2_inj l) right hnd]
  cases hf : right.find? (fun r => decide (l.FacilityID_merge = some r.FacilityID)) with
  | none => rfl
  | some d => rfl

lemma row1Of_FacilityID (right : List Row0) (l : Row0) :
    (row1Of right l).FacilityID = l.FacilityID := by
  unfold row1Of
  cases right.find? (fun r => decide (l.Merge_ID = some r.FacilityID)) <;> rfl

lemma row1Of_Sum_Turnov (right : List Row0) (l : Row0) :
    (row1Of right l).Sum_Turnov = l.Sum_Turnov := by
  unfold row1Of
  cases right.find? (fun r => decide (l.Merge_ID = some r.FacilityID)) <;> rfl

lemma row1Of_OutletCt (right : List Row0) (l : Row0) :
    (row1Of right l).OutletCt = l.OutletCt := by
  unfold row1Of
  cases right.find? (fun r => decide (l.Merge_ID = some r.FacilityID)) <;> rfl

lemma row2Of_base (right : List Row1) (l : Row1) :
    (row2Of right l).FacilityID = l.FacilityID ∧
    (row2Of right l).LocName_merge = l.LocName_merge ∧
    (row2Of right l).FacilityID_merge = l.FacilityID_merge := by
  unfold row2Of
  cases right.find? (fun r => decide (l.FacilityID_merge = some r.FacilityID)) <;>
    exact ⟨rfl, rfl, rfl⟩

/-- A predicate holds on at least two rows of a table iff, from the viewpoint
of any row `i` satisfying it, some other row also satisfies it. -/
lemma countP_two_iff {α : Type} (l : List α) (p : α → Bool) (i : Nat)
    (hi : i < l.length) (hpi : p l[i] = true) :
    2 ≤ l.countP p ↔
      ∃ j, ∃ hj : j < l.length, j ≠ i ∧ p l[j] = true := by
  have hdecomp : l.take i ++ l[i] :: l.drop (i + 1) = l := by
    rw [← List.drop_eq_getElem_cons hi]
    exact List.take_append_drop i l
  constructor
  · intro h2
    rw [← hdecomp, List.countP_append, List.countP_cons_of_pos _ _ hpi] at h2
    have hsplit : 0 < (l.take i).countP p ∨ 0 < (l.drop (i + 1)).countP p := by
      omega
    rcases hsplit with h | h
    · obtain ⟨a, ha, hpa⟩ := List.countP_pos_iff.mp h
      obtain ⟨j, hjb, hgetj⟩ := List.mem_iff_getElem.mp ha
      have hjlen : j < i := by
        have := List.length_take i l
        omega
      refine ⟨j, by omega, by omega, ?_⟩
      have hpt : p ((l.take i)[j]) = true := by rw [hgetj]; exact hpa
      simpa [List.getElem_take] using hpt
    · obtain ⟨a, ha, hpa⟩ := List.countP_pos_iff.mp h
      obtain ⟨j, hjb, hgetj⟩ := List.mem_iff_getElem.mp ha
      have hjlen : j < l.length - (i + 1) := by
        have := List.length_drop (i + 1) l
        omega
      refine ⟨i + 1 + j, by omega, by omega, ?_⟩
      have hpt : p ((l.drop (i + 1))[j]) = true := by rw [hgetj]; exact hpa
      simpa [List.getElem_drop] using hpt
  · rintro ⟨j, hj, hne, hpj⟩
    rw [← hdecomp, List.countP_append, List.countP_cons_of_pos _ _ hpi]
    rcases Nat.lt_or_ge j i with hlt | hge
    · have hb : j < (l.take i).length := by
        rw [List.length_take]
        omega
      have hmem : l[j] ∈ l.take i :=
        List.mem_iff_getElem.mpr ⟨j, hb, by rw [List.getElem_take]⟩
      have := List.countP_pos_iff.mpr ⟨_, hmem, hpj⟩
      omega
    · have hgt : i < j := by omega
      obtain ⟨k, rfl⟩ : ∃ k, j = i + 1 + k := ⟨j - (i + 1), by omega⟩
      have hb : k < (l.drop (i + 1)).length := by
        rw [List.length_drop]
        omega
      have hmem : l[i + 1 + k] ∈ l.drop (i + 1) :=
        List.mem_iff_getElem.mpr ⟨k, hb, by rw [List.getElem_drop]⟩
      have := List.countP_pos_iff.mpr ⟨_, hmem, hpj⟩
      omega

/-- Selecting by a mask computed as `l.map f` is filtering by `f`. -/
lemma maskSelect_map_self {α : Type} (f : α → Bool) :
    ∀ l : List α, maskSelect l (l.map f) = l.filter f := by
  intro l
  induction l with
  | nil => rfl
  | cons a t ih =>
    by_cases hfa : f a = true
    · rw [List.map_cons, List.filter_cons_of_pos hfa]
      simpa [maskSelect, hfa] using ih
    · rw [List.map_cons, List.filter_cons_of_neg hfa]
      have hfa2 : f a = false := by
        cases h : f a
        · rfl
        · exact absurd h hfa
      simpa [maskSelect, hfa2] using ih

/-- `read_excel` column renaming is the identity on nonempty header names. -/
lemma renameUnnamed_eq_self : ∀ (k : Nat) (l : List String), "" ∉ l →
    renameUnnamed k l = l := by
  intro k l
  induction l generalizing k with
  | nil => intro _; rfl
  | cons h t ih =>
    intro hmem
    have hne : ¬h = "" := fun he => hmem (he ▸ List.mem_cons_self h t)
    rw [renameUnnamed, if_neg hne, ih (k + 1) (fun ht => hmem (List.mem_cons_of_mem h ht))]

/-- The boolean filter predicate of `main`, spelled as the claim spells it:
keep iff `Total_OutletCt >= 250` and `Merge_Num != 2`. -/
lemma queryPred_iff (r : Row3) : queryPred r = true ↔
    (∃ v, r.Total_OutletCt = some v ∧ 250 ≤ v) ∧ r.Merge_Num ≠ some 2 := by
  unfold queryPred
  cases hoc : r.Total_OutletCt with
  | none => simp
  | some v =>
    cases hmn : r.Merge_Num with
    | none => simp
    | some m => simp

/-! ## Claim theorems -/

/-- Claim C1, counterexample: on the two-row input table exactly as the claim
states it (no incidental `Unnamed: 0` column), the full Frame Preparation
pipeline does not succeed: `merge_turnover_outlets` raises `KeyError` when
dropping the absent `Unnamed: 0` column, so `main` aborts instead of
producing the filtered table. -/
theorem mainPrep_keyError_on_plain_input :
    mainPrep exampleFrame "out" false [] = .error (.keyError "Unnamed: 0") := by
  rfl

/-- Claim C1, amended: when the two-row input additionally carries the
incidental `Unnamed: 0` index column (as a `to_excel`/`read_excel` round
trip produces), the full pipeline succeeds and the filtered table contains
exactly the row with FacilityID=1, carrying Total_TURNOV=150,
Total_OutletCt=400 and avg_TURNOV=3/8=0.375; the row with FacilityID=2 is
dropped. -/
theorem mainPrep_end_to_end_with_index_col :
    (mainPrep exampleFrameRoundTrip "out" false []).map Prod.snd =
      .ok [(0, exampleSurvivor)] := by
  with_unfolding_all rfl

/-- Claim C3: `postproc_turnover_df` keeps every row (one output row per
input row), coerces every null in the four turnover/outlet columns to 0, and
in every output row `Total_TURNOV` is the sum of the coerced `Sum_Turnov`
and `Sum_Turnov_loc2` and `Total_OutletCt` the sum of the coerced `OutletCt`
and `OutletCt_loc2`. -/
theorem postproc_totals_identity (df : List Row2) :
    (postproc_turnover_df df).1.length = df.length ∧
    ∀ i, ∀ hi : i < df.length, ∀ hi2 : i < (postproc_turnover_df df).1.length,
      ((postproc_turnover_df df).1[i].Sum_Turnov = some (df[i].Sum_Turnov.getD 0) ∧
       (postproc_turnover_df df).1[i].Sum_Turnov_loc2 = some (df[i].Sum_Turnov_loc2.getD 0) ∧
       (postproc_turnover_df df).1[i].OutletCt = some (df[i].OutletCt.getD 0) ∧
       (postproc_turnover_df df).1[i].OutletCt_loc2 = some (df[i].OutletCt_loc2.getD 0)) ∧
      (postproc_turnover_df df).1[i].Total_TURNOV =
        some (df[i].Sum_Turnov.getD 0 + df[i].Sum_Turnov_loc2.getD 0) ∧
      (postproc_turnover_df df).1[i].Total_OutletCt =
        some (df[i].OutletCt.getD 0 + df[i].OutletCt_loc2.getD 0) := by
  constructor
  · simp [postproc_turnover_df]
  · intro i hi hi2
    simp only [postproc_turnover_df, List.getElem_map]
    simp [addTotalsRow, fillnaRow2, optAdd]

/-- Witness for claim C3 at a concrete merged table with a null donor
column. -/
theorem postproc_totals_identity_witness :
    (0 : Nat) < [exampleMergedNullRow].length ∧
    (postproc_turnover_df [exampleMergedNullRow]).1[0].Total_TURNOV =
      some (20 + 0) := by
  refine ⟨by decide, ?_⟩
  have h := (postproc_totals_identity [exampleMergedNullRow]).2 0 (by decide)
    (by with_unfolding_all decide)
  exact h.2.1

/-- Claim C4: the size/role filter of `main` keeps a row iff its
`Total_OutletCt` is at least 250 and its `Merge_Num` differs from 2; no
other rows appear, and the surviving rows form a sublist of the input (the
relative order is preserved). -/
theorem query_filter_iff (df : List (Nat × Row3)) :
    (∀ p, p ∈ queryFilter df ↔
      p ∈ df ∧ (∃ v, p.2.Total_OutletCt = some v ∧ 250 ≤ v) ∧
        p.2.Merge_Num ≠ some 2) ∧
    (queryFilter df).Sublist df := by
  constructor
  · intro p
    unfold queryFilter
    rw [List.mem_filter]
    constructor
    · rintro ⟨hmem, hp⟩
      exact ⟨hmem, (queryPred_iff p.2).mp hp⟩
    · rintro ⟨hmem, hp⟩
      exact ⟨hmem, (queryPred_iff p.2).mpr hp⟩
  · exact List.filter_sublist df

/-- Claim C8: in `postproc_turnover_df`, a row whose computed
`Total_OutletCt` is 0 still gets a value for `avg_TURNOV` — one of the
non-finite floating-point sentinels — and the (total) function returns all
its rows, so the pipeline continues. -/
theorem avg_turnov_div_zero_sentinel (df : List Row2) (o : Row3)
    (ho : o ∈ (postproc_turnover_df df).1)
    (hz : o.Total_OutletCt = some 0) :
    (o.avg_TURNOV = .inf ∨ o.avg_TURNOV = .neginf ∨ o.avg_TURNOV = .nan) ∧
    (postproc_turnover_df df).1.length = df.length := by
  refine ⟨?_, by simp [postproc_turnover_df]⟩
  simp only [postproc_turnover_df, List.map_map, List.mem_map] at ho
  obtain ⟨r, hmem, rfl⟩ := ho
  simp only [Function.comp, addTotalsRow] at hz ⊢
  have hTot : optAdd (fillnaRow2 r).OutletCt (fillnaRow2 r).OutletCt_loc2 =
      some 0 := hz
  rw [hTot]
  cases ht : optAdd (fillnaRow2 r).Sum_Turnov (fillnaRow2 r).Sum_Turnov_loc2 with
  | none => simp [optDivPV]
  | some s =>
    simp only [optDivPV, divPV, ne_eq, not_true_eq_false, if_false,
      not_false_eq_true]
    rcases lt_trichotomy s 0 with h | h | h
    · rw [if_neg (not_lt.mpr (le_of_lt h)), if_pos h]
      exact Or.inr (Or.inl rfl)
    · subst h
      rw [if_neg (lt_irrefl 0), if_neg (lt_irrefl 0)]
      exact Or.inr (Or.inr rfl)
    · rw [if_pos h]
      exact Or.inl rfl

/-- Witness for claim C8: a merged row with outlet count 0 flows through
`postproc_turnover_df` and receives a sentinel `avg_TURNOV`. -/
theorem avg_turnov_div_zero_sentinel_witness :
    (addTotalsRow (fillnaRow2 exampleZeroOutletRow) ∈
      (postproc_turnover_df [exampleZeroOutletRow]).1) ∧
    (addTotalsRow (fillnaRow2 exampleZeroOutletRow)).Total_OutletCt = some 0 ∧
    ((addTotalsRow (fillnaRow2 exampleZeroOutletRow)).avg_TURNOV = .inf ∨
     (addTotalsRow (fillnaRow2 exampleZeroOutletRow)).avg_TURNOV = .neginf ∨
     (addTotalsRow (fillnaRow2 exampleZeroOutletRow)).avg_TURNOV = .nan) := by
  have hmem : addTotalsRow (fillnaRow2 exampleZeroOutletRow) ∈
      (postproc_turnover_df [exampleZeroOutletRow]).1 := by
    simp [postproc_turnover_df]
  have hz : (addTotalsRow (fillnaRow2 exampleZeroOutletRow)).Total_OutletCt =
      some 0 := by
    with_unfolding_all rfl
  exact ⟨hmem, hz,
    (avg_turnov_div_zero_sentinel [exampleZeroOutletRow] _ hmem hz).1⟩

/-- Claim C9: no pipeline stage mutates its input table.  In the state
passing embedding each stage returns the final state of its argument as its
second component; for `postproc_turnover_df`, `save_df_duplicates` and
`generate_replacement_locations` that state is the untouched input, because
each stage works on a copy or only reads its argument. -/
theorem stages_do_not_mutate_input (a : List Row2) (b : List SRow)
    (region : String) (n : Nat) (rnds : List Rat) (c : List (Nat × Row3))
    (key : (Nat × Row3) → Option Int) (outfile : String) (overwrite : Bool)
    (fs : FS) :
    (postproc_turnover_df a).2 = a ∧
    (generate_replacement_locations b region n rnds).2 = b ∧
    (save_df_duplicates serTagged3 c key outfile overwrite fs).2 = c :=
  ⟨rfl, rfl, rfl⟩

/-- Claim C5: `save_df_duplicates` writes exactly the rows whose value in the
keyed column is shared with at least one other row (mark-all semantics): a
row of the table is selected iff some other row has the same key value, so
rows with a unique value never appear. -/
theorem save_df_duplicates_mark_all {α β : Type} [DecidableEq β]
    (ser : List α → UTable) (df : List α) (key : α → β) (outfile : String)
    (fs : FS) (i : Nat) (hi : i < df.length) :
    (save_df_duplicates ser df key outfile true fs).1.2 =
      fsWrite fs outfile
        (toTabularFile true (ser (maskSelect df (duplicatedKeepFalse key df)))) ∧
    (df[i] ∈ maskSelect df (duplicatedKeepFalse key df) ↔
      ∃ j, ∃ hj : j < df.length, j ≠ i ∧ key df[j] = key df[i]) := by
  constructor
  · simp [save_df_duplicates, write_df_to_excel]
  · unfold duplicatedKeepFalse
    rw [maskSelect_map_self, List.mem_filter]
    have h2 := countP_two_iff df (fun s => decide (key s = key df[i])) i hi
      (by simp)
    constructor
    · rintro ⟨-, hd⟩
      rw [decide_eq_true_eq] at hd
      obtain ⟨j, hj, hne, hpj⟩ := h2.mp hd
      exact ⟨j, hj, hne, of_decide_eq_true hpj⟩
    · rintro ⟨j, hj, hne, hkey⟩
      refine ⟨List.getElem_mem hi, ?_⟩
      rw [decide_eq_true_eq]
      exact h2.mpr ⟨j, hj, hne, decide_eq_true hkey⟩

/-- Witness for claim C5 on a two-row table whose key values coincide. -/
theorem save_df_duplicates_mark_all_witness :
    (0 : Nat) < ([5, 5] : List Nat).length ∧
    ((save_df_duplicates (fun _ => exampleUTable) ([5, 5] : List Nat) id
        "dup.xlsx" true ([] : FS)).1.2 =
      fsWrite ([] : FS) "dup.xlsx"
        (toTabularFile true ((fun _ : List Nat => exampleUTable)
          (maskSelect [5, 5] (duplicatedKeepFalse id [5, 5])))) ∧
     (([5, 5] : List Nat)[0] ∈ maskSelect [5, 5] (duplicatedKeepFalse id [5, 5]) ↔
      ∃ j, ∃ hj : j < ([5, 5] : List Nat).length, j ≠ 0 ∧
        id (([5, 5] : List Nat)[j]) = id (([5, 5] : List Nat)[0]))) :=
  ⟨by decide, save_df_duplicates_mark_all (fun _ => exampleUTable) [5, 5] id
    "dup.xlsx" ([] : FS) 0 (by decide)⟩

/-- Claim C7: for both writers, if the output path already exists and
overwrite is disabled the call returns the `FileExistsError` with the
message naming the path and the remedy, and leaves the filesystem untouched
(nothing is written); with overwrite enabled the write succeeds and the
path's prior binding is shadowed by the fresh contents.  For `write_df` the
message is built from the module-global `args.outfile` (`a`), which at the
only call site equals the written path. -/
theorem write_guard_overwrite (t u : UTable) (p a : String) (fs : FS) :
    ((fsLookup fs p).isSome = true →
      write_df_to_excel t p false fs = (some (fileExistsMsg p), fs) ∧
      write_df u p a false fs = (some (forceMsg a), fs) ∧
      (a = p → write_df u p a false fs = (some (forceMsg p), fs))) ∧
    (write_df_to_excel t p true fs = (none, fsWrite fs p (toTabularFile true t)) ∧
     fsLookup (write_df_to_excel t p true fs).2 p = some (toTabularFile true t)) ∧
    (write_df u p a true fs = (none, fsWrite fs p (toTabularFile false u)) ∧
     fsLookup (write_df u p a true fs).2 p = some (toTabularFile false u)) := by
  refine ⟨?_, ⟨?_, ?_⟩, ⟨?_, ?_⟩⟩
  · intro h
    refine ⟨by simp [write_df_to_excel, h], by simp [write_df, h], ?_⟩
    rintro rfl
    simp [write_df, h]
  · simp [write_df_to_excel]
  · simp [write_df_to_excel, fsLookup, fsWrite, List.lookup]
  · simp [write_df]
  · simp [write_df, fsLookup, fsWrite, List.lookup]

/-- Witness for claim C7 at a filesystem that already holds the target
path. -/
theorem write_guard_overwrite_witness :
    (fsLookup (fsWrite ([] : FS) "w.xlsx" (toTabularFile true exampleUTable))
        "w.xlsx").isSome = true ∧
    write_df_to_excel exampleUTable "w.xlsx" false
        (fsWrite ([] : FS) "w.xlsx" (toTabularFile true exampleUTable)) =
      (some (fileExistsMsg "w.xlsx"),
        fsWrite ([] : FS) "w.xlsx" (toTabularFile true exampleUTable)) ∧
    write_df_to_excel exampleUTable "w.xlsx" true
        (fsWrite ([] : FS) "w.xlsx" (toTabularFile true exampleUTable)) =
      (none, fsWrite (fsWrite ([] : FS) "w.xlsx" (toTabularFile true exampleUTable))
        "w.xlsx" (toTabularFile true exampleUTable)) := by
  have h : (fsLookup (fsWrite ([] : FS) "w.xlsx"
      (toTabularFile true exampleUTable)) "w.xlsx").isSome = true := by
    with_unfolding_all decide
  have happ := write_guard_overwrite exampleUTable exampleUTable "w.xlsx"
    "w.xlsx" (fsWrite ([] : FS) "w.xlsx" (toTabularFile true exampleUTable))
  exact ⟨h, (happ.1 h).1, happ.2.1.1⟩

/-- Claim C10: `write_df_to_excel` writes the dataframe with its row index as
an extra leading column (default `to_excel`), so the written file re-read
with `read_excel` gains an `Unnamed: 0` column absent from the in-memory
table; `write_df` writes with `index=False`, so its file re-reads with
exactly the original columns. -/
theorem to_excel_index_column_round_trip (t : UTable) (p a : String) (fs : FS)
    (hc : "" ∉ t.cols) (hx : is_file_excel p = true)
    (hlen : t.idx.length = t.rows.length) :
    (write_df_to_excel t p true fs).2 = fsWrite fs p (toTabularFile true t) ∧
    (readExcelFile (toTabularFile true t)).cols = "Unnamed: 0" :: t.cols ∧
    (∀ i, ∀ hi : i < t.idx.length, ∀ hi2 : i < t.rows.length,
      ∀ hi3 : i < (toTabularFile true t).cells.length,
      (toTabularFile true t).cells[i] =
        Cell.num (Int.cast t.idx[i] : Rat) :: t.rows[i]) ∧
    (write_df t p a true fs).2 = fsWrite fs p (toTabularFile false t) ∧
    (readExcelFile (toTabularFile false t)).cols = t.cols := by
  refine ⟨by simp [write_df_to_excel], ?_, ?_, by simp [write_df], ?_⟩
  · show renameUnnamed 0 ("" :: t.cols) = "Unnamed: 0" :: t.cols
    rw [renameUnnamed, if_pos rfl, renameUnnamed_eq_self 1 t.cols hc]
    rfl
  · intro i hi hi2 hi3
    simp only [toTabularFile, if_pos]
    rw [List.getElem_zipWith]
  · show renameUnnamed 0 t.cols = t.cols
    exact renameUnnamed_eq_self 0 t.cols hc

/-- Witness for claim C10 at a concrete two-row table and spreadsheet
path. -/
theorem to_excel_index_column_round_trip_witness :
    ("" ∉ exampleUTable.cols ∧ is_file_excel "w.xlsx" = true ∧
      exampleUTable.idx.length = exampleUTable.rows.length) ∧
    (readExcelFile (toTabularFile true exampleUTable)).cols =
      "Unnamed: 0" :: exampleUTable.cols ∧
    (readExcelFile (toTabularFile false exampleUTable)).cols =
      exampleUTable.cols := by
  have h := to_excel_index_column_round_trip exampleUTable "w.xlsx" "w.xlsx"
    ([] : FS) (by decide) (by decide) (by decide)
  exact ⟨⟨by decide, by decide, by decide⟩, h.2.1, h.2.2.2.2⟩

/-- Claim C6: for a table with unique facility identifiers, a region with R
candidate rows and any requested count, `generate_replacement_locations`
returns exactly `min n R` rows (no error when the request exceeds R), every
returned row belongs to the requested region of the input table, and no
`FacilityID` repeats in the selection.  `rnds` is the vector of per-row
uniform draws, one per regional row. -/
theorem generate_replacement_locations_bound (df : List SRow) (region : String)
    (n : Nat) (rnds : List Rat)
    (hnd : (df.map SRow.FacilityID).Nodup)
    (hlen : rnds.length = (df.filter (fun r => decide (r.Region = region))).length) :
    (generate_replacement_locations df region n rnds).1.length =
      min n (df.filter (fun r => decide (r.Region = region))).length ∧
    (∀ r ∈ (generate_replacement_locations df region n rnds).1,
      r ∈ df ∧ r.Region = region) ∧
    ((generate_replacement_locations df region n rnds).1.map SRow.FacilityID).Nodup := by
  have hgen : (generate_replacement_locations df region n rnds).1 =
      ((((df.filter (fun r => decide (r.Region = region))).zip
          (List.zipWith mulPV
            ((df.filter (fun r => decide (r.Region = region))).map
              (fun r => divPV r.Sum_Turnov
                (((df.filter (fun r => decide (r.Region = region))).map
                  SRow.Sum_Turnov).sum)))
            rnds)).mergeSort
          (fun a b => pvalDescLe a.2 b.2)).map Prod.fst).take n := rfl
  set reg := df.filter (fun r => decide (r.Region = region)) with hreg
  set w := List.zipWith mulPV
    (reg.map (fun r => divPV r.Sum_Turnov ((reg.map SRow.Sum_Turnov).sum)))
    rnds with hw
  have hwlen : w.length = reg.length := by
    rw [hw, List.length_zipWith, List.length_map, ← hlen]
    exact min_self rnds.length
  have hzip : (reg.zip w).map Prod.fst = reg :=
    List.map_fst_zip reg w (le_of_eq hwlen.symm)
  have hperm : ((((reg.zip w)).mergeSort
      (fun a b => pvalDescLe a.2 b.2)).map Prod.fst).Perm reg := by
    have h1 := List.mergeSort_perm (reg.zip w) (fun a b => pvalDescLe a.2 b.2)
    have h2 := h1.map Prod.fst
    rwa [hzip] at h2
  refine ⟨?_, ?_, ?_⟩
  · rw [hgen, List.length_take, hperm.length_eq]
  · intro r hr
    rw [hgen] at hr
    have hr2 := List.mem_of_mem_take hr
    have hr3 : r ∈ reg := hperm.mem_iff.mp hr2
    rw [hreg] at hr3
    rcases List.mem_filter.mp hr3 with ⟨hmem, hregion⟩
    exact ⟨hmem, of_decide_eq_true hregion⟩
  · have hsub : reg.Sublist df := by
      rw [hreg]
      exact List.filter_sublist df
    have hnd1 : (reg.map SRow.FacilityID).Nodup :=
      (hsub.map SRow.FacilityID).nodup hnd
    have hnd2 : ((((reg.zip w).mergeSort
        (fun a b => pvalDescLe a.2 b.2)).map Prod.fst).map SRow.FacilityID).Nodup :=
      ((hperm.map SRow.FacilityID).nodup_iff).mpr hnd1
    rw [hgen]
    exact ((List.take_sublist n _).map SRow.FacilityID).nodup hnd2

/-- Witness for claim C6: a two-row one-region frame, one requested
location, two uniform draws. -/
theorem generate_replacement_locations_bound_witness :
    ((exampleSampleFrame.map SRow.FacilityID).Nodup ∧
      ([1/2, 1/3] : List Rat).length =
        (exampleSampleFrame.filter
          (fun r => decide (r.Region = "North"))).length) ∧
    (generate_replacement_locations exampleSampleFrame "North" 1 [1/2, 1/3]).1.length =
      min 1 (exampleSampleFrame.filter
        (fun r => decide (r.Region = "North"))).length ∧
    (∀ r ∈ (generate_replacement_locations exampleSampleFrame "North" 1 [1/2, 1/3]).1,
      r ∈ exampleSampleFrame ∧ r.Region = "North") ∧
    ((generate_replacement_locations exampleSampleFrame "North" 1
      [1/2, 1/3]).1.map SRow.FacilityID).Nodup := by
  have h := generate_replacement_locations_bound exampleSampleFrame "North" 1
    [1/2, 1/3] (by decide) (by decide)
  exact ⟨⟨by decide, by decide⟩, h.1, h.2.1, h.2.2⟩

/-- Claim C2, counterexample: on a table with unique FacilityID values but
without the incidental `Unnamed: 0` column, the chain of the two self left
joins raises `KeyError` (in `merge_turnover_outlets`, dropping the absent
column) — so it is not true that the composition works for every such table
with no error raised. -/
theorem merge_chain_keyError_on_plain_input :
    (merge_facility_ID exampleFrame "out/f1.xlsx" true []).bind
      (fun r => merge_turnover_outlets r.2 "out/f2.xlsx" true r.1) =
      .error (.keyError "Unnamed: 0") := by
  rfl

/-- Claim C2, amended: for every table with unique FacilityID values that
carries the incidental `Unnamed: 0` index column, the two self left joins
(`merge_facility_ID` then `merge_turnover_outlets`) succeed with one output
row per input row; a row whose `Merge_ID` equals some donor row's
`FacilityID` carries exactly that donor's `LocName`, `FacilityID`,
`Sum_Turnov` and `OutletCt` in the suffixed columns, and a row with no
matching donor carries nulls there. -/
theorem merge_chain_donor_semantics (t : Frame0) (p1 p2 : String) (fs : FS)
    (hU : t.hasU0 = true)
    (hnd : (t.rows.map Row0.FacilityID).Nodup) :
    ∃ fs1 m1 fs2 m2,
      merge_facility_ID t p1 true fs = .ok (fs1, m1) ∧
      merge_turnover_outlets m1 p2 true fs1 = .ok (fs2, m2) ∧
      m2.length = t.rows.length ∧
      ∀ i, ∀ hi : i < m2.length, ∀ hi2 : i < t.rows.length,
        m2[i].FacilityID = t.rows[i].FacilityID ∧
        (∀ d ∈ t.rows, t.rows[i].Merge_ID = some d.FacilityID →
          m2[i].LocName_merge = d.LocName ∧
          m2[i].FacilityID_merge = some d.FacilityID ∧
          m2[i].Sum_Turnov_loc2 = d.Sum_Turnov ∧
          m2[i].OutletCt_loc2 = d.OutletCt) ∧
        ((∀ d ∈ t.rows, t.rows[i].Merge_ID ≠ some d.FacilityID) →
          m2[i].LocName_merge = Cell.null ∧
          m2[i].FacilityID_merge = none ∧
          m2[i].Sum_Turnov_loc2 = none ∧
          m2[i].OutletCt_loc2 = none) := by
  have hrows1 : t.rows.flatMap (mergeRows1 t.rows) = t.rows.map (row1Of t.rows) :=
    flatMap_of_forall_singleton t.rows (mergeRows1 t.rows) (row1Of t.rows)
      (fun a _ => mergeRows1_eq t.rows a hnd)
  have hnd1 : ((t.rows.map (row1Of t.rows)).map Row1.FacilityID).Nodup := by
    rw [List.map_map]
    have hcomp : (Row1.FacilityID ∘ row1Of t.rows) = Row0.FacilityID := by
      funext a
      exact row1Of_FacilityID t.rows a
    rw [hcomp]
    exact hnd
  have hrows2 : (t.rows.map (row1Of t.rows)).flatMap
        (mergeRows2 (t.rows.map (row1Of t.rows))) =
      (t.rows.map (row1Of t.rows)).map (row2Of (t.rows.map (row1Of t.rows))) :=
    flatMap_of_forall_singleton _ _ _
      (fun a _ => mergeRows2_eq (t.rows.map (row1Of t.rows)) a hnd1)
  have h1 : merge_facility_ID t p1 true fs =
      .ok (fsWrite fs p1 (toTabularFile true (serFrame1
            { hasU0 := t.hasU0, rows := t.rows.map (row1Of t.rows) })),
          { hasU0 := t.hasU0, rows := t.rows.map (row1Of t.rows) }) := by
    simp [merge_facility_ID, write_df_to_excel, hrows1]
  have h2 : merge_turnover_outlets
        ({ hasU0 := t.hasU0, rows := t.rows.map (row1Of t.rows) } : Frame1)
        p2 true
        (fsWrite fs p1 (toTabularFile true (serFrame1
          { hasU0 := t.hasU0, rows := t.rows.map (row1Of t.rows) }))) =
      .ok (fsWrite
            (fsWrite fs p1 (toTabularFile true (serFrame1
              { hasU0 := t.hasU0, rows := t.rows.map (row1Of t.rows) })))
            p2 (toTabularFile true (serRows2
              ((t.rows.map (row1Of t.rows)).map (row2Of (t.rows.map (row1Of t.rows)))))),
          (t.rows.map (row1Of t.rows)).map (row2Of (t.rows.map (row1Of t.rows)))) := by
    simp [merge_turnover_outlets, write_df_to_excel, hU, hrows2]
  refine ⟨_, _, _, _, h1, h2, by simp, ?_⟩
  intro i hi hi2
  have hget : ((t.rows.map (row1Of t.rows)).map
      (row2Of (t.rows.map (row1Of t.rows))))[i] =
      row2Of (t.rows.map (row1Of t.rows)) (row1Of t.rows t.rows[i]) := by
    simp [List.getElem_map]
  rw [hget]
  refine ⟨?_, ?_, ?_⟩
  · rw [(row2Of_base _ _).1, row1Of_FacilityID]
  · intro d hd heq
    have hfind1 : t.rows.find?
        (fun r => decide (t.rows[i].Merge_ID = some r.FacilityID)) = some d :=
      find_unique_key Row0.FacilityID _ (probe1_inj t.rows[i]) t.rows hnd d hd
        (by simp [heq])
    have hr1merge : (row1Of t.rows t.rows[i]).FacilityID_merge =
        some d.FacilityID := by
      unfold row1Of
      rw [hfind1]
    have hr1loc : (row1Of t.rows t.rows[i]).LocName_merge = d.LocName := by
      unfold row1Of
      rw [hfind1]
    have hd1mem : row1Of t.rows d ∈ t.rows.map (row1Of t.rows) :=
      List.mem_map_of_mem (row1Of t.rows) hd
    have hpred2 : (fun r => decide
        ((row1Of t.rows t.rows[i]).FacilityID_merge = some r.FacilityID))
        (row1Of t.rows d) = true := by
      simp only [hr1merge, row1Of_FacilityID, decide_eq_true_eq]
    have hfind2 : (t.rows.map (row1Of t.rows)).find?
        (fun r => decide
          ((row1Of t.rows t.rows[i]).FacilityID_merge = some r.FacilityID)) =
        some (row1Of t.rows d) :=
      find_unique_key Row1.FacilityID _ (probe2_inj (row1Of t.rows t.rows[i]))
        (t.rows.map (row1Of t.rows)) hnd1 (row1Of t.rows d) hd1mem hpred2
    refine ⟨?_, ?_, ?_, ?_⟩
    · rw [(row2Of_base _ _).2.1, hr1loc]
    · rw [(row2Of_base _ _).2.2, hr1merge]
    · unfold row2Of
      rw [hfind2]
      exact row1Of_Sum_Turnov t.rows d
    · unfold row2Of
      rw [hfind2]
      exact row1Of_OutletCt t.rows d
  · intro h
    have hfind1 : t.rows.find?
        (fun r => decide (t.rows[i].Merge_ID = some r.FacilityID)) = none :=
      List.find?_eq_none.mpr (fun x hx => by simp [h x hx])
    have hr1merge : (row1Of t.rows t.rows[i]).FacilityID_merge = none := by
      unfold row1Of
      rw [hfind1]
    have hr1loc : (row1Of t.rows t.rows[i]).LocName_merge = Cell.null := by
      unfold row1Of
      rw [hfind1]
    have hfind2 : (t.rows.map (row1Of t.rows)).find?
        (fun r => decide
          ((row1Of t.rows t.rows[i]).FacilityID_merge = some r.FacilityID)) =
        none :=
      List.find?_eq_none.mpr (fun x _ => by simp [hr1merge])
    refine ⟨?_, ?_, ?_, ?_⟩
    · rw [(row2Of_base _ _).2.1, hr1loc]
    · rw [(row2Of_base _ _).2.2, hr1merge]
    · unfold row2Of
      rw [hfind2]
    · unfold row2Of
      rw [hfind2]

/-- Witness for the amended claim C2 at the round-tripped two-row example
table. -/
theorem merge_chain_donor_semantics_witness :
    (exampleFrameRoundTrip.hasU0 = true ∧
      (exampleFrameRoundTrip.rows.map Row0.FacilityID).Nodup) ∧
    (∃ fs1 m1 fs2 m2,
      merge_facility_ID exampleFrameRoundTrip "out/f1.xlsx" true ([] : FS) =
        .ok (fs1, m1) ∧
      merge_turnover_outlets m1 "out/f2.xlsx" true fs1 = .ok (fs2, m2) ∧
      m2.length = exampleFrameRoundTrip.rows.length ∧
      ∀ i, ∀ hi : i < m2.length,
        ∀ hi2 : i < exampleFrameRoundTrip.rows.length,
        m2[i].FacilityID = exampleFrameRoundTrip.rows[i].FacilityID ∧
        (∀ d ∈ exampleFrameRoundTrip.rows,
          exampleFrameRoundTrip.rows[i].Merge_ID = some d.FacilityID →
          m2[i].LocName_merge = d.LocName ∧
          m2[i].FacilityID_merge = some d.FacilityID ∧
          m2[i].Sum_Turnov_loc2 = d.Sum_Turnov ∧
          m2[i].OutletCt_loc2 = d.OutletCt) ∧
        ((∀ d ∈ exampleFrameRoundTrip.rows,
          exampleFrameRoundTrip.rows[i].Merge_ID ≠ some d.FacilityID) →
          m2[i].LocName_merge = Cell.null ∧
          m2[i].FacilityID_merge = none ∧
          m2[i].Sum_Turnov_loc2 = none ∧
          m2[i].OutletCt_loc2 = none)) :=
  ⟨⟨rfl, by decide⟩,
    merge_chain_donor_semantics exampleFrameRoundTrip "out/f1.xlsx"
      "out/f2.xlsx" ([] : FS) rfl (by decide)⟩
